import Mathlib

/-!
Verification of the error-unification core of the `mundane` crate
(`src/lib.rs`): the unified `Error` type, its `Display` and `Debug`
renderings, the conversion from the engine's `BoringError`, and the
`rand_bytes` passthrough.

The `boringssl` module that implements `BoringError` is not part of the
examined sources; it is modelled here from the spec as an opaque value
exposing exactly the observations the unified-error layer consumes.
-/

namespace Mundane

/-- Modelled from the spec: the Engine Error Adapter (`BoringError`, defined
in the crate's `boringssl` module, which is not among the examined source
files). The spec makes it opaque beyond a single-line display rendering, a
full (possibly multi-line) debug rendering, and a queryable stack depth. -/
structure BoringError where
  displayText : String
  debugText : String
  stackDepth : Nat
deriving DecidableEq, Repr

/-- The two variants of the crate's unified error (`enum ErrorInner` in
`src/lib.rs`): `Mundane` holds an owned message string, `Boring` holds an
owned `BoringError`. -/
inductive ErrorInner where
  | Mundane : String → ErrorInner
  | Boring : BoringError → ErrorInner
deriving DecidableEq, Repr

/-- The unified error type (`pub struct Error(ErrorInner)` in `src/lib.rs`):
a newtype around `ErrorInner`. -/
structure Error where
  inner : ErrorInner
deriving DecidableEq, Repr

/-- `Error::new` in `src/lib.rs` (the spec's `from_message`): wraps the
message in the `Mundane` variant. -/
def Error.new (s : String) : Error :=
  ⟨ErrorInner.Mundane s⟩

/-- `impl From<BoringError> for Error` in `src/lib.rs`: wraps the adapter
in the `Boring` variant. -/
def Error.fromBoring (err : BoringError) : Error :=
  ⟨ErrorInner.Boring err⟩

/-- `impl Display for Error` in `src/lib.rs`: a `Mundane` error renders its
message verbatim; a `Boring` error renders as `"boringssl: "` followed by
the adapter's display rendering. -/
def Error.display (e : Error) : String :=
  match e.inner with
  | ErrorInner.Mundane err => err
  | ErrorInner.Boring err => "boringssl: " ++ err.displayText

/-- `impl Debug for Error` in `src/lib.rs`: a `Mundane` error renders its
message verbatim; a `Boring` error branches on the adapter's stack depth —
depth exactly 1 renders inline as `"boringssl: "` plus the debug rendering,
any other depth renders as `"boringssl:"`, a newline, and the debug
rendering. -/
def Error.debugFmt (e : Error) : String :=
  match e.inner with
  | ErrorInner.Mundane err => err
  | ErrorInner.Boring err =>
    if err.stackDepth == 1 then
      "boringssl: " ++ err.debugText
    else
      "boringssl:\n" ++ err.debugText

/-- The facade's `rand_bytes` in `src/lib.rs`. The engine primitive
`boringssl::rand_bytes` is not among the examined sources; modelled from
the spec as an arbitrary transformation of the caller's buffer contents,
passed in as `engineRand`. The facade body is a single delegating call. -/
def rand_bytes (engineRand : List Nat → List Nat) (bytes : List Nat) : List Nat :=
  engineRand bytes

/-- Concrete depth-1 adapter used as a test vector (the spec's Scenario B). -/
def sampleDepth1 : BoringError :=
  { displayText := "bad padding", debugText := "bad padding", stackDepth := 1 }

/-- Concrete depth-3 adapter used as a test vector (the spec's Scenario C). -/
def sampleDepth3 : BoringError :=
  { displayText := "f", debugText := "frame1\nframe2\nframe3", stackDepth := 3 }

/-- Concrete depth-0 adapter, below the engine boundary's stated minimum
depth of 1, used to probe the depth branch of the Debug rendering. -/
def sampleDepth0 : BoringError :=
  { displayText := "x", debugText := "x", stackDepth := 0 }

end Mundane

open Mundane

/-- C1: for every engine failure `e`, the Debug rendering of the wrapped
unified error branches on the adapter's stack depth — depth 1 yields
`"boringssl: "` followed by the adapter's debug rendering with no leading
newline, and depth greater than 1 yields `"boringssl:"`, a newline, and
the adapter's debug rendering. -/
theorem engine_debug_branching (e : BoringError) :
    (e.stackDepth = 1 →
      (Error.fromBoring e).debugFmt = "boringssl: " ++ e.debugText) ∧
    (e.stackDepth > 1 →
      (Error.fromBoring e).debugFmt = "boringssl:\n" ++ e.debugText) := by
  constructor
  · intro h
    simp [Error.fromBoring, Error.debugFmt, h]
  · intro h
    have hne : e.stackDepth ≠ 1 := by omega
    simp [Error.fromBoring, Error.debugFmt, hne]

/-- Witness for C1: a depth-1 adapter renders inline and a depth-3 adapter
renders with the leading newline. -/
theorem engine_debug_branching_witness :
    (sampleDepth1.stackDepth = 1 ∧
      (Error.fromBoring sampleDepth1).debugFmt =
        "boringssl: " ++ sampleDepth1.debugText) ∧
    (sampleDepth3.stackDepth > 1 ∧
      (Error.fromBoring sampleDepth3).debugFmt =
        "boringssl:\n" ++ sampleDepth3.debugText) :=
  ⟨⟨rfl, (engine_debug_branching sampleDepth1).1 rfl⟩,
   ⟨by decide, (engine_debug_branching sampleDepth3).2 (by decide)⟩⟩

/-- C2: for every engine failure `e`, the Display rendering of the wrapped
unified error is the fixed prefix `"boringssl: "` immediately followed by
the adapter's single-line display rendering. -/
theorem engine_display_prefixing (e : BoringError) :
    (Error.fromBoring e).display = "boringssl: " ++ e.displayText := rfl

/-- C3: for every message string `m`, both the Display and the Debug
rendering of the unified error built from `m` equal `m` verbatim. -/
theorem local_display_debug_verbatim (m : String) :
    (Error.new m).display = m ∧ (Error.new m).debugFmt = m :=
  ⟨rfl, rfl⟩

/-- C4: the conversion from an Engine Error Adapter is a pure total wrap —
the result is exactly the `Boring` variant holding the given adapter, so
the display text, debug text, and stack depth later observed are those of
the original adapter. -/
theorem from_boring_pure_wrap (e : BoringError) :
    Error.fromBoring e = ⟨ErrorInner.Boring e⟩ ∧
    (Error.fromBoring e).display = "boringssl: " ++ e.displayText ∧
    (Error.fromBoring e).debugFmt =
      (if e.stackDepth == 1 then "boringssl: " ++ e.debugText
       else "boringssl:\n" ++ e.debugText) :=
  ⟨rfl, rfl, rfl⟩

/-- C6: construction from a message, conversion from an adapter, and both
renderings are total — for every message string and every adapter state
(the empty message and depth-1 adapters included) each operation produces
a result. -/
theorem construction_and_rendering_total (m : String) (b : BoringError) :
    (∃ e : Error, Error.new m = e) ∧
    (∃ e : Error, Error.fromBoring b = e) ∧
    (∃ s : String, (Error.new m).display = s) ∧
    (∃ s : String, (Error.new m).debugFmt = s) ∧
    (∃ s : String, (Error.fromBoring b).display = s) ∧
    (∃ s : String, (Error.fromBoring b).debugFmt = s) :=
  ⟨⟨_, rfl⟩, ⟨_, rfl⟩, ⟨_, rfl⟩, ⟨_, rfl⟩, ⟨_, rfl⟩, ⟨_, rfl⟩⟩

/-- C7: the unified error is a tagged union with exactly two variants —
every error value holds either the `Mundane` variant with some message
string or the `Boring` variant with some adapter, and there is no third
kind. -/
theorem exactly_two_variants (e : Error) :
    (∃ m : String, e = Error.new m) ∨
    (∃ b : BoringError, e = Error.fromBoring b) := by
  obtain ⟨inner⟩ := e
  cases inner with
  | Mundane m => exact Or.inl ⟨m, rfl⟩
  | Boring b => exact Or.inr ⟨b, rfl⟩

/-- C8: `Error::new` (the spec's `from_message`) builds the `Mundane`
(Local) variant from an arbitrary string; it is a pure total function of
its input. -/
theorem new_builds_local (s : String) :
    (Error.new s).inner = ErrorInner.Mundane s := rfl

/-- C9: the facade's `rand_bytes` delegates entirely to the engine's
random-byte primitive — for every engine primitive and every buffer, its
effect on the buffer is exactly the engine primitive's effect, with
nothing added or altered. -/
theorem rand_bytes_delegates (engineRand : List Nat → List Nat)
    (bytes : List Nat) :
    rand_bytes engineRand bytes = engineRand bytes := rfl

/-- C10: the Debug rendering of a wrapped engine failure uses the
multi-frame leading-newline form for every reported stack depth other than
exactly 1 — a depth of 0 included — and the inline no-newline form exactly
when the reported depth is 1. -/
theorem debug_newline_iff_depth_ne_one (e : BoringError) :
    (e.stackDepth ≠ 1 →
      (Error.fromBoring e).debugFmt = "boringssl:\n" ++ e.debugText) ∧
    (e.stackDepth = 1 →
      (Error.fromBoring e).debugFmt = "boringssl: " ++ e.debugText) := by
  constructor
  · intro h
    simp [Error.fromBoring, Error.debugFmt, h]
  · intro h
    simp [Error.fromBoring, Error.debugFmt, h]

/-- Witness for C10: a depth-0 adapter, below the engine boundary's stated
minimum, takes the leading-newline form, and a depth-1 adapter takes the
inline form. -/
theorem debug_newline_iff_depth_ne_one_witness :
    (sampleDepth0.stackDepth ≠ 1 ∧
      (Error.fromBoring sampleDepth0).debugFmt =
        "boringssl:\n" ++ sampleDepth0.debugText) ∧
    (sampleDepth1.stackDepth = 1 ∧
      (Error.fromBoring sampleDepth1).debugFmt =
        "boringssl: " ++ sampleDepth1.debugText) :=
  ⟨⟨by decide, (debug_newline_iff_depth_ne_one sampleDepth0).1 (by decide)⟩,
   ⟨rfl, (debug_newline_iff_depth_ne_one sampleDepth1).2 rfl⟩⟩
